import Mathlib

/-!
Shallow embedding of the download-acquisition orchestrator of
`src/csv_scraper.py` (`scrape_and_download` together with its selector
loop, the download-capture task and the copy-to-destination step).

The orchestrator is modelled as a function from an environment oracle
(what the page, the network and the browser do on each attempt) to the
trace of observable steps the Python code performs, paired with the
`(success, error)` tuple it returns.  The escalating retry — a recursive
self-call with `headless=False` — is kept as a genuine recursive call,
with termination following from the code's own guard (`if headless:`).
-/

/-- The five CSS selectors `scrape_and_download` tries in order. -/
def selectors : List String :=
  ["#download-sheet",
   "button#download-sheet",
   "button:has-text(\"Download\")",
   "button:has-text(\"Export\")",
   "a:has-text(\"Download\")"]

/-- The XPath fallback tried once the selector loop has exhausted. -/
def xpathSelector : String := "xpath=//*[@id=\"download-sheet\"]"

/-- All locator strategies, in the priority order the code probes them. -/
def allSelectors : List String := selectors ++ [xpathSelector]

/-- The byte threshold below which a materialized file is suspect
(`if file_size < 100`). -/
def sizeThreshold : Nat := 100

/-- Observable steps of one `scrape_and_download` call.  Browser-side
events carry the attempt's `headless` flag, which identifies the attempt
uniquely (the only recursive call flips the flag to `false`). -/
inductive Event where
  | mkdirs (dir : String)
  | launch (headless : Bool)
  | navigate (headless : Bool)
  | probe (headless : Bool) (sel : String)
  | arm (headless : Bool)
  | click (headless : Bool)
  | captureDone (headless : Bool) (content : List Nat)
  | writeDest (content : List Nat)
  | close (headless : Bool) (failed : Bool)
  deriving DecidableEq

/-- The selector loop of `scrape_and_download`: try each strategy in
order; return the list of probed strategies and the first one with a
visible match (`wait_for_selector` succeeding within its bound). -/
def resolveTrace (vis : String → Bool) : List String → List String × Option String
  | [] => ([], none)
  | s :: rest =>
      if vis s then ([s], some s)
      else
        let r := resolveTrace vis rest
        (s :: r.1, r.2)

/-- Environment oracle: everything outside the program's control, per
attempt (indexed by the attempt's `headless` flag).  `vis` says which
selectors have a visible match within the per-strategy bound; `navFault`
is an unexpected fault raised during navigation; `download` is the
outcome of the capture wait (`some bytes` = the download resolved with
this source-file content, `none` = `asyncio.wait_for` timed out);
`closeFails` says whether `browser.close()` raises during teardown. -/
structure Env where
  vis : Bool → String → Bool
  navFault : Bool → Option String
  download : Bool → Option (List Nat)
  closeFails : Bool → Bool

/-- Embedding of `scrape_and_download`.  Returns the event trace and the
`(success, error)` pair the Python function returns.  Branches, in the
order of the source: an unexpected navigation fault is caught by the
`except` clause and turned into `(False, "Error: " + msg)`; if no
strategy matches, `(False, "Download button not found with any
selector")`; if the capture wait times out, the raised `TimeoutError`
(whose message is empty) is caught by the same `except`, giving
`(False, "Error: ")`; otherwise the bytes are copied to the destination
and, when the file is smaller than the threshold and the attempt was
headless, the function returns the result of a recursive call with
`headless=False`; else `(True, None)`.  The `finally` clause closes the
browser on every path, swallowing teardown failures. -/
def scrape (env : Env) (headless : Bool) : List Event × (Bool × Option String) :=
  match env.navFault headless with
  | some msg =>
      ([Event.mkdirs "downloads", Event.launch headless, Event.navigate headless,
        Event.close headless (env.closeFails headless)],
       (false, some ("Error: " ++ msg)))
  | none =>
      match (resolveTrace (env.vis headless) allSelectors).2 with
      | none =>
          ([Event.mkdirs "downloads", Event.launch headless, Event.navigate headless] ++
             ((resolveTrace (env.vis headless) allSelectors).1.map (Event.probe headless)) ++
             [Event.close headless (env.closeFails headless)],
           (false, some "Download button not found with any selector"))
      | some _ =>
          match env.download headless with
          | none =>
              ([Event.mkdirs "downloads", Event.launch headless, Event.navigate headless] ++
                 ((resolveTrace (env.vis headless) allSelectors).1.map (Event.probe headless)) ++
                 [Event.arm headless, Event.click headless,
                  Event.close headless (env.closeFails headless)],
               (false, some "Error: "))
          | some content =>
              if h : content.length < sizeThreshold ∧ headless = true then
                ([Event.mkdirs "downloads", Event.launch headless, Event.navigate headless] ++
                   ((resolveTrace (env.vis headless) allSelectors).1.map (Event.probe headless)) ++
                   [Event.arm headless, Event.click headless,
                    Event.captureDone headless content, Event.writeDest content] ++
                   (scrape env false).1 ++
                   [Event.close headless (env.closeFails headless)],
                 (scrape env false).2)
              else
                ([Event.mkdirs "downloads", Event.launch headless, Event.navigate headless] ++
                   ((resolveTrace (env.vis headless) allSelectors).1.map (Event.probe headless)) ++
                   [Event.arm headless, Event.click headless,
                    Event.captureDone headless content, Event.writeDest content] ++
                   [Event.close headless (env.closeFails headless)],
                 (true, none))
termination_by (cond headless 1 0)
decreasing_by
  all_goals rw [h.2]
  all_goals decide

/-! ### Trace predicates -/

/-- Does the event record a browser launch (the start of one attempt)? -/
def isLaunch : Event → Bool
  | Event.launch _ => true
  | _ => false

/-- Launch event of the attempt tagged `b`. -/
def isLaunchTag (b : Bool) : Event → Bool
  | Event.launch c => c == b
  | _ => false

/-- Close event of the attempt tagged `b` (failed or not). -/
def isCloseTag (b : Bool) : Event → Bool
  | Event.close c _ => c == b
  | _ => false

/-- Does the event arm the download listener? -/
def isArm : Event → Bool
  | Event.arm _ => true
  | _ => false

/-- Does the event click the download button? -/
def isClick : Event → Bool
  | Event.click _ => true
  | _ => false

/-- State left by a trace on attempt `b`'s listener: armed or not. -/
def armAfter (b : Bool) (armed : Bool) : List Event → Bool
  | [] => armed
  | Event.arm c :: rest => armAfter b (armed || c == b) rest
  | _ :: rest => armAfter b armed rest

/-- Scan of a trace checking that, in attempt `b`, every click is
preceded by an arming of the download listener. -/
def checkArm (b : Bool) (armed : Bool) : List Event → Bool
  | [] => true
  | Event.arm c :: rest => checkArm b (armed || c == b) rest
  | Event.click c :: rest => (!(c == b) || armed) && checkArm b armed rest
  | _ :: rest => checkArm b armed rest

/-- Content of the most recent completed capture after a trace. -/
def capAfter (cap : Option (List Nat)) : List Event → Option (List Nat)
  | [] => cap
  | Event.captureDone _ c :: rest => capAfter (some c) rest
  | _ :: rest => capAfter cap rest

/-- Scan of a trace checking that every write to the caller-visible
destination carries exactly the bytes of the most recent completed
capture (so no write precedes a capture, and no partial copy occurs). -/
def checkWrites (cap : Option (List Nat)) : List Event → Bool
  | [] => true
  | Event.captureDone _ c :: rest => checkWrites (some c) rest
  | Event.writeDest c :: rest => (cap == some c) && checkWrites cap rest
  | _ :: rest => checkWrites cap rest

/-! ### Concrete environments -/

/-- Page whose id selector matches and whose download always resolves
with a 40-byte file (below the threshold), in both rendering modes. -/
def envSmall : Env where
  vis := fun _ s => s == "#download-sheet"
  navFault := fun _ => none
  download := fun _ => some (List.replicate 40 7)
  closeFails := fun _ => false

/-- Page on which no locator strategy ever has a visible match. -/
def envNoButton : Env where
  vis := fun _ _ => false
  navFault := fun _ => none
  download := fun _ => none
  closeFails := fun _ => false

/-- Page whose id selector matches but whose download never fires. -/
def envStalled : Env where
  vis := fun _ s => s == "#download-sheet"
  navFault := fun _ => none
  download := fun _ => none
  closeFails := fun _ => false

/-! ### Helper lemmas on the trace predicates -/

lemma checkArm_append (b : Bool) (xs ys : List Event) : ∀ armed,
    checkArm b armed (xs ++ ys)
      = (checkArm b armed xs && checkArm b (armAfter b armed xs) ys) := by
  induction xs with
  | nil => intro armed; simp [checkArm, armAfter]
  | cons e rest ih =>
      intro armed
      cases e <;> simp [checkArm, armAfter, ih, Bool.and_assoc]

lemma armAfter_append (b : Bool) (xs ys : List Event) : ∀ armed,
    armAfter b armed (xs ++ ys) = armAfter b (armAfter b armed xs) ys := by
  induction xs with
  | nil => intro armed; simp [armAfter]
  | cons e rest ih => intro armed; cases e <;> simp [armAfter, ih]

lemma checkArm_probes (b hh : Bool) (l : List String) : ∀ armed,
    checkArm b armed (l.map (Event.probe hh)) = true := by
  induction l with
  | nil => intro armed; simp [checkArm]
  | cons s rest ih => intro armed; simp [checkArm, ih]

lemma armAfter_probes (b hh : Bool) (l : List String) : ∀ armed,
    armAfter b armed (l.map (Event.probe hh)) = armed := by
  induction l with
  | nil => intro armed; simp [armAfter]
  | cons s rest ih => intro armed; simp [armAfter, ih]

lemma checkArm_mono (b : Bool) (l : List Event) : ∀ a₁ a₂ : Bool,
    (a₁ = true → a₂ = true) → checkArm b a₁ l = true → checkArm b a₂ l = true := by
  induction l with
  | nil => intro a₁ a₂ _ _; simp [checkArm]
  | cons e rest ih =>
      intro a₁ a₂ hle hl
      cases e with
      | arm c =>
          simp only [checkArm] at hl ⊢
          refine ih _ _ ?_ hl
          cases a₁ <;> cases a₂ <;> cases c == b <;> simp_all
      | click c =>
          simp only [checkArm, Bool.and_eq_true] at hl ⊢
          refine ⟨?_, ih _ _ hle hl.2⟩
          rcases hl with ⟨h1, -⟩
          cases hcb : c == b <;> cases a₁ <;> cases a₂ <;> simp_all
      | mkdirs d => simp only [checkArm] at hl ⊢; exact ih _ _ hle hl
      | launch c => simp only [checkArm] at hl ⊢; exact ih _ _ hle hl
      | navigate c => simp only [checkArm] at hl ⊢; exact ih _ _ hle hl
      | probe c s => simp only [checkArm] at hl ⊢; exact ih _ _ hle hl
      | captureDone c k => simp only [checkArm] at hl ⊢; exact ih _ _ hle hl
      | writeDest k => simp only [checkArm] at hl ⊢; exact ih _ _ hle hl
      | close c f => simp only [checkArm] at hl ⊢; exact ih _ _ hle hl

lemma checkWrites_append (xs ys : List Event) : ∀ cap,
    checkWrites cap (xs ++ ys)
      = (checkWrites cap xs && checkWrites (capAfter cap xs) ys) := by
  induction xs with
  | nil => intro cap; simp [checkWrites, capAfter]
  | cons e rest ih =>
      intro cap
      cases e <;> simp [checkWrites, capAfter, ih, Bool.and_assoc]

lemma checkWrites_probes (hh : Bool) (l : List String) : ∀ cap,
    checkWrites cap (l.map (Event.probe hh)) = true := by
  induction l with
  | nil => intro cap; simp [checkWrites]
  | cons s rest ih => intro cap; simp [checkWrites, ih]

lemma capAfter_probes (hh : Bool) (l : List String) : ∀ cap,
    capAfter cap (l.map (Event.probe hh)) = cap := by
  induction l with
  | nil => intro cap; simp [capAfter]
  | cons s rest ih => intro cap; simp [capAfter, ih]

lemma checkWrites_of_none (l : List Event)
    (hl : checkWrites none l = true) : ∀ cap, checkWrites cap l = true := by
  induction l with
  | nil => intro cap; simp [checkWrites]
  | cons e rest ih =>
      intro cap
      cases e with
      | captureDone c k => simp only [checkWrites] at hl ⊢; exact hl
      | writeDest k => simp only [checkWrites] at hl; simp_all
      | mkdirs d => simp only [checkWrites] at hl ⊢; exact ih hl cap
      | launch c => simp only [checkWrites] at hl ⊢; exact ih hl cap
      | navigate c => simp only [checkWrites] at hl ⊢; exact ih hl cap
      | probe c s => simp only [checkWrites] at hl ⊢; exact ih hl cap
      | arm c => simp only [checkWrites] at hl ⊢; exact ih hl cap
      | click c => simp only [checkWrites] at hl ⊢; exact ih hl cap
      | close c f => simp only [checkWrites] at hl ⊢; exact ih hl cap

lemma countP_probes (p : Event → Bool) (hh : Bool) (l : List String)
    (hp : ∀ s, p (Event.probe hh s) = false) :
    (l.map (Event.probe hh)).countP p = 0 := by
  induction l with
  | nil => simp
  | cons s rest ih => simp [List.countP_cons, hp, ih]

lemma countP_comp_probes (p : Event → Bool) (hh : Bool)
    (hp : ∀ s, p (Event.probe hh s) = false) (l : List String) :
    l.countP (p ∘ Event.probe hh) = 0 := by
  induction l with
  | nil => simp
  | cons s rest ih => simp [List.countP_cons, hp, ih, Function.comp]

lemma getLast?_concat_event (xs : List Event) (a : Event) :
    (xs ++ [a]).getLast? = some a := by
  rw [List.getLast?_append_cons]; rfl

lemma getLast?_cons_append_cons (x : Event) (l1 : List Event) (a : Event) (l2 : List Event) :
    (x :: (l1 ++ a :: l2)).getLast? = (a :: l2).getLast? := by
  rw [show x :: (l1 ++ a :: l2) = (x :: l1) ++ a :: l2 from rfl, List.getLast?_append_cons]

lemma getLast?_cons_concat (x a : Event) (xs : List Event) :
    (x :: (xs ++ [a])).getLast? = some a := by
  rw [show x :: (xs ++ [a]) = (x :: xs) ++ [a] from rfl, getLast?_concat_event]

lemma getLast?_single (a : Event) : ([a] : List Event).getLast? = some a := rfl

/-! ### Lemmas about the orchestrator's traces -/

lemma close_eq_launch_aux (env : Env) (h b : Bool)
    (ih : h = true →
      (scrape env false).1.countP (isCloseTag b) = (scrape env false).1.countP (isLaunchTag b)) :
    (scrape env h).1.countP (isCloseTag b) = (scrape env h).1.countP (isLaunchTag b) := by
  unfold scrape
  cases hnav : env.navFault h with
  | some msg => simp [List.countP_cons, isCloseTag, isLaunchTag]
  | none =>
    cases hres : (resolveTrace (env.vis h) allSelectors).2 with
    | none =>
        simp [List.countP_append, List.countP_cons, countP_comp_probes, isCloseTag, isLaunchTag]
    | some sel =>
      cases hdl : env.download h with
      | none =>
          simp [List.countP_append, List.countP_cons, countP_comp_probes, isCloseTag, isLaunchTag]
      | some content =>
        by_cases hg : content.length < sizeThreshold ∧ h = true
        · simp only [dif_pos hg]
          simp [List.countP_append, List.countP_cons, countP_comp_probes, isCloseTag, isLaunchTag,
            ih hg.2]
        · simp only [dif_neg hg]
          simp [List.countP_append, List.countP_cons, countP_comp_probes, isCloseTag, isLaunchTag]

lemma close_eq_launch (env : Env) (h b : Bool) :
    (scrape env h).1.countP (isCloseTag b) = (scrape env h).1.countP (isLaunchTag b) :=
  close_eq_launch_aux env h b
    (fun _ => close_eq_launch_aux env false b (fun hc => nomatch hc))

lemma launchTag_count_false (env : Env) (b : Bool) :
    (scrape env false).1.countP (isLaunchTag b) = cond b 0 1 := by
  unfold scrape
  cases hnav : env.navFault false with
  | some msg =>
      cases b <;> simp [List.countP_cons, isLaunchTag]
  | none =>
    cases hres : (resolveTrace (env.vis false) allSelectors).2 with
    | none =>
        cases b <;>
          simp [List.countP_append, List.countP_cons, countP_comp_probes, isLaunchTag]
    | some sel =>
      cases hdl : env.download false with
      | none =>
          cases b <;>
            simp [List.countP_append, List.countP_cons, countP_comp_probes, isLaunchTag]
      | some content =>
          cases b <;>
            simp [List.countP_append, List.countP_cons, countP_comp_probes, isLaunchTag]

lemma launchTag_le_one (env : Env) (h b : Bool) :
    (scrape env h).1.countP (isLaunchTag b) ≤ 1 := by
  unfold scrape
  cases hnav : env.navFault h with
  | some msg => cases b <;> cases h <;> simp [List.countP_cons, isLaunchTag]
  | none =>
    cases hres : (resolveTrace (env.vis h) allSelectors).2 with
    | none =>
        cases b <;> cases h <;>
          simp [List.countP_append, List.countP_cons, countP_comp_probes, isLaunchTag]
    | some sel =>
      cases hdl : env.download h with
      | none =>
          cases b <;> cases h <;>
            simp [List.countP_append, List.countP_cons, countP_comp_probes, isLaunchTag]
      | some content =>
        by_cases hg : content.length < sizeThreshold ∧ h = true
        · simp only [dif_pos hg]
          cases b <;>
            simp [List.countP_append, List.countP_cons, countP_comp_probes, isLaunchTag,
              launchTag_count_false, hg.2]
        · simp only [dif_neg hg]
          cases b <;> cases h <;>
            simp [List.countP_append, List.countP_cons, countP_comp_probes, isLaunchTag]

lemma trace_ends_with_close (env : Env) (h : Bool) :
    (scrape env h).1.getLast? = some (Event.close h (env.closeFails h)) := by
  unfold scrape
  cases hnav : env.navFault h with
  | some msg => simp
  | none =>
    cases hres : (resolveTrace (env.vis h) allSelectors).2 with
    | none =>
        simp [getLast?_cons_append_cons, getLast?_cons_concat, getLast?_concat_event,
          getLast?_single, List.getLast?_cons_cons]
    | some sel =>
      cases hdl : env.download h with
      | none =>
          simp [getLast?_cons_append_cons, getLast?_cons_concat, getLast?_concat_event,
            getLast?_single, List.getLast?_cons_cons]
      | some content =>
        by_cases hg : content.length < sizeThreshold ∧ h = true
        · simp only [dif_pos hg]
          simp [getLast?_cons_append_cons, getLast?_cons_concat, getLast?_concat_event,
            getLast?_single, List.getLast?_cons_cons]
        · simp only [dif_neg hg]
          simp [getLast?_cons_append_cons, getLast?_cons_concat, getLast?_concat_event,
            getLast?_single, List.getLast?_cons_cons]

lemma result_ignores_closeFails_aux (env : Env) (f : Bool → Bool) (h : Bool)
    (ih : h = true →
      (scrape { env with closeFails := f } false).2 = (scrape env false).2) :
    (scrape { env with closeFails := f } h).2 = (scrape env h).2 := by
  unfold scrape
  cases hnav : env.navFault h with
  | some msg => simp [hnav]
  | none =>
    cases hres : (resolveTrace (env.vis h) allSelectors).2 with
    | none => simp [hnav, hres]
    | some sel =>
      cases hdl : env.download h with
      | none => simp [hnav, hres, hdl]
      | some content =>
        by_cases hg : content.length < sizeThreshold ∧ h = true
        · simp only [hnav, hres, hdl, dif_pos hg]
          exact ih hg.2
        · simp [hnav, hres, hdl, dif_neg hg]

lemma result_ignores_closeFails (env : Env) (f : Bool → Bool) (h : Bool) :
    (scrape { env with closeFails := f } h).2 = (scrape env h).2 :=
  result_ignores_closeFails_aux env f h
    (fun _ => result_ignores_closeFails_aux env f false (fun hc => nomatch hc))
lemma launch_count_false (env : Env) :
    (scrape env false).1.countP isLaunch = 1 := by
  unfold scrape
  cases hnav : env.navFault false with
  | some msg => simp [List.countP_cons, isLaunch]
  | none =>
    cases hres : (resolveTrace (env.vis false) allSelectors).2 with
    | none => simp [List.countP_append, List.countP_cons, countP_comp_probes, isLaunch]
    | some sel =>
      cases hdl : env.download false with
      | none => simp [List.countP_append, List.countP_cons, countP_comp_probes, isLaunch]
      | some content =>
          simp [List.countP_append, List.countP_cons, countP_comp_probes, isLaunch]

lemma launch_count_le_two (env : Env) (h : Bool) :
    (scrape env h).1.countP isLaunch ≤ 2 := by
  unfold scrape
  cases hnav : env.navFault h with
  | some msg => simp [List.countP_cons, isLaunch]
  | none =>
    cases hres : (resolveTrace (env.vis h) allSelectors).2 with
    | none => simp [List.countP_append, List.countP_cons, countP_comp_probes, isLaunch]
    | some sel =>
      cases hdl : env.download h with
      | none => simp [List.countP_append, List.countP_cons, countP_comp_probes, isLaunch]
      | some content =>
        by_cases hg : content.length < sizeThreshold ∧ h = true
        · simp only [dif_pos hg]
          simp [List.countP_append, List.countP_cons, countP_comp_probes, isLaunch,
            launch_count_false]
        · simp only [dif_neg hg]
          simp [List.countP_append, List.countP_cons, countP_comp_probes, isLaunch]

lemma checkArm_scrape_aux (env : Env) (h b : Bool)
    (ih : h = true → checkArm b false (scrape env false).1 = true) :
    checkArm b false (scrape env h).1 = true := by
  unfold scrape
  cases hnav : env.navFault h with
  | some msg => simp [checkArm]
  | none =>
    cases hres : (resolveTrace (env.vis h) allSelectors).2 with
    | none =>
        simp [checkArm_append, armAfter_append, checkArm_probes, armAfter_probes,
          checkArm, armAfter]
    | some sel =>
      cases hdl : env.download h with
      | none =>
          simp [checkArm_append, armAfter_append, checkArm_probes, armAfter_probes,
            checkArm, armAfter]
      | some content =>
        by_cases hg : content.length < sizeThreshold ∧ h = true
        · have hinner : ∀ a : Bool, checkArm b a (scrape env false).1 = true :=
            fun a => checkArm_mono b (scrape env false).1 false a
              (fun hc => nomatch hc) (ih hg.2)
          simp only [dif_pos hg]
          simp [checkArm_append, armAfter_append, checkArm_probes, armAfter_probes,
            checkArm, armAfter, hinner]
        · simp only [dif_neg hg]
          simp [checkArm_append, armAfter_append, checkArm_probes, armAfter_probes,
            checkArm, armAfter]

lemma checkWrites_scrape_aux (env : Env) (h : Bool)
    (ih : h = true → checkWrites none (scrape env false).1 = true) :
    checkWrites none (scrape env h).1 = true := by
  unfold scrape
  cases hnav : env.navFault h with
  | some msg => simp [checkWrites]
  | none =>
    cases hres : (resolveTrace (env.vis h) allSelectors).2 with
    | none =>
        simp [checkWrites_append, checkWrites_probes, capAfter_probes, checkWrites, capAfter]
    | some sel =>
      cases hdl : env.download h with
      | none =>
          simp [checkWrites_append, checkWrites_probes, capAfter_probes, checkWrites, capAfter]
      | some content =>
        by_cases hg : content.length < sizeThreshold ∧ h = true
        · have hinner : ∀ cap, checkWrites cap (scrape env false).1 = true :=
            checkWrites_of_none (scrape env false).1 (ih hg.2)
          simp only [dif_pos hg]
          simp [checkWrites_append, checkWrites_probes, capAfter_probes, checkWrites,
            capAfter, hinner]
        · simp only [dif_neg hg]
          simp [checkWrites_append, checkWrites_probes, capAfter_probes, checkWrites, capAfter]

lemma head_is_mkdirs (env : Env) (h : Bool) :
    (scrape env h).1.head? = some (Event.mkdirs "downloads") := by
  unfold scrape
  cases hnav : env.navFault h with
  | some msg => simp
  | none =>
    cases hres : (resolveTrace (env.vis h) allSelectors).2 with
    | none => simp
    | some sel =>
      cases hdl : env.download h with
      | none => simp
      | some content =>
        by_cases hg : content.length < sizeThreshold ∧ h = true
        · simp only [dif_pos hg]; simp
        · simp only [dif_neg hg]; simp

lemma success_iff_no_error_aux (env : Env) (h : Bool)
    (ih : h = true → ((scrape env false).2.1 = true ↔ (scrape env false).2.2 = none)) :
    ((scrape env h).2.1 = true) ↔ (scrape env h).2.2 = none := by
  unfold scrape
  cases hnav : env.navFault h with
  | some msg => simp
  | none =>
    cases hres : (resolveTrace (env.vis h) allSelectors).2 with
    | none => simp
    | some sel =>
      cases hdl : env.download h with
      | none => simp
      | some content =>
        by_cases hg : content.length < sizeThreshold ∧ h = true
        · simp only [dif_pos hg]
          exact ih hg.2
        · simp [hg]

lemma notfound_result (env : Env) (h : Bool)
    (hnav : env.navFault h = none)
    (hres : (resolveTrace (env.vis h) allSelectors).2 = none) :
    (scrape env h).2 = (false, some "Download button not found with any selector") ∧
    (scrape env h).1.countP isArm = 0 ∧
    (scrape env h).1.countP isClick = 0 ∧
    (scrape env h).1.countP isLaunch = 1 := by
  unfold scrape
  simp [hnav, hres, List.countP_append, List.countP_cons, countP_comp_probes,
    isArm, isClick, isLaunch]

lemma timeout_result (env : Env) (h : Bool)
    (hnav : env.navFault h = none) (sel : String)
    (hres : (resolveTrace (env.vis h) allSelectors).2 = some sel)
    (hdl : env.download h = none) :
    (scrape env h).2 = (false, some "Error: ") ∧
    (scrape env h).1.countP isLaunch = 1 := by
  unfold scrape
  simp [hnav, hres, hdl, List.countP_append, List.countP_cons, countP_comp_probes, isLaunch]
lemma resolver_characterization (vis : String → Bool) (l : List String) :
    (resolveTrace vis l).2 = l.find? vis ∧
    (resolveTrace vis l).1
      = l.takeWhile (fun s => !vis s) ++ (l.find? vis).toList := by
  induction l with
  | nil => simp [resolveTrace]
  | cons s rest ih =>
      by_cases hv : vis s
      · simp [resolveTrace, hv, List.find?_cons, List.takeWhile_cons]
      · simp [resolveTrace, hv, List.find?_cons, List.takeWhile_cons, ih]

lemma materialize_success (env : Env) (h : Bool)
    (hnav : env.navFault h = none) (sel : String)
    (hres : (resolveTrace (env.vis h) allSelectors).2 = some sel)
    (content : List Nat) (hdl : env.download h = some content)
    (hng : ¬(content.length < sizeThreshold ∧ h = true)) :
    (scrape env h).2 = (true, none) ∧
    (scrape env h).1.countP isLaunch = 1 := by
  unfold scrape
  simp [hnav, hres, hdl, dif_neg hng, List.countP_append, List.countP_cons,
    countP_comp_probes, isLaunch]

lemma escalated_small_success (env : Env)
    (hnavT : env.navFault true = none) (selT : String)
    (hresT : (resolveTrace (env.vis true) allSelectors).2 = some selT)
    (cT : List Nat) (hdlT : env.download true = some cT)
    (hsmallT : cT.length < sizeThreshold)
    (hnavF : env.navFault false = none) (selF : String)
    (hresF : (resolveTrace (env.vis false) allSelectors).2 = some selF)
    (cF : List Nat) (hdlF : env.download false = some cF)
    (hsmallF : cF.length < sizeThreshold) :
    (scrape env true).2 = (true, none) ∧
    (scrape env true).1.countP isLaunch = 2 := by
  have hinner := materialize_success env false hnavF selF hresF cF hdlF (by simp)
  unfold scrape
  simp [hnavT, hresT, hdlT, hsmallT, hinner.1, hinner.2, List.countP_append,
    List.countP_cons, countP_comp_probes, isLaunch]

/-! ### Claims -/

/-- C1 (counterexample): on a page where both the headless attempt and
the escalated non-headless retry materialize a 40-byte file (below the
100-byte threshold), the orchestrator escalates exactly once (two
launches) and then returns success `(True, None)` — not the
`"file too small"` failure the claim states; no such failure reason
exists in the code. -/
theorem claim1_counterexample :
    envSmall.download false = some (List.replicate 40 7) ∧
    (List.replicate 40 7).length < sizeThreshold ∧
    (scrape envSmall true).1.countP isLaunch = 2 ∧
    (scrape envSmall true).2 = (true, none) ∧
    ¬((scrape envSmall true).2 = (false, some "file too small")) := by
  have hmain := escalated_small_success envSmall rfl "#download-sheet" rfl
    (List.replicate 40 7) rfl (by decide) rfl "#download-sheet" rfl
    (List.replicate 40 7) rfl (by decide)
  refine ⟨rfl, by decide, hmain.2, hmain.1, ?_⟩
  rw [hmain.1]
  simp

/-- C1 (amended): for every acquire call whose escalated (non-headless)
retry attempt also produces a materialized file smaller than the
100-byte threshold, the orchestrator returns a success result
`(True, None)` without retrying further (exactly two launches) — it only
warns about the small file; it does not report a "file too small"
failure. -/
theorem claim1_escalated_small_is_success (env : Env)
    (hnavT : env.navFault true = none) (selT : String)
    (hresT : (resolveTrace (env.vis true) allSelectors).2 = some selT)
    (cT : List Nat) (hdlT : env.download true = some cT)
    (hsmallT : cT.length < sizeThreshold)
    (hnavF : env.navFault false = none) (selF : String)
    (hresF : (resolveTrace (env.vis false) allSelectors).2 = some selF)
    (cF : List Nat) (hdlF : env.download false = some cF)
    (hsmallF : cF.length < sizeThreshold) :
    (scrape env true).2 = (true, none) ∧
    (scrape env true).1.countP isLaunch = 2 :=
  escalated_small_success env hnavT selT hresT cT hdlT hsmallT
    hnavF selF hresF cF hdlF hsmallF

/-- Witness for C1 (amended) at the concrete small-download page. -/
theorem claim1_witness :
    (scrape envSmall true).2 = (true, none) ∧
    (scrape envSmall true).1.countP isLaunch = 2 :=
  claim1_escalated_small_is_success envSmall rfl "#download-sheet" rfl
    (List.replicate 40 7) rfl (by decide) rfl "#download-sheet" rfl
    (List.replicate 40 7) rfl (by decide)

/-- C2: on every exit path of one attempt the browser session of that
attempt is closed exactly once (close events match launch events, and
each attempt launches at most once), the close is the last step before
the attempt's result is returned, and a teardown failure
(`closeFails`) never alters the returned result. -/
theorem claim2_session_closed_once (env : Env) (h b : Bool) (f : Bool → Bool) :
    (scrape env h).1.countP (isCloseTag b) = (scrape env h).1.countP (isLaunchTag b) ∧
    (scrape env h).1.countP (isLaunchTag b) ≤ 1 ∧
    (scrape env h).1.getLast? = some (Event.close h (env.closeFails h)) ∧
    (scrape { env with closeFails := f } h).2 = (scrape env h).2 :=
  ⟨close_eq_launch env h b, launchTag_le_one env h b, trace_ends_with_close env h,
   result_ignores_closeFails env f h⟩

/-- C3: for every strategy list and page, the resolver returns the first
strategy in priority order with a visible match (`List.find?`), and the
probed strategies are exactly the non-matching prefix plus that first
match — later strategies are never probed once one matches. -/
theorem claim3_resolver_first_match (vis : String → Bool) (l : List String) :
    (resolveTrace vis l).2 = l.find? vis ∧
    (resolveTrace vis l).1
      = l.takeWhile (fun s => !vis s) ++ (l.find? vis).toList :=
  resolver_characterization vis l

/-- C4: if every locator strategy exhausts without a visible match, the
resolver yields `none` and the orchestrator returns the button-not-found
failure without arming the download listener or clicking anything, and
without any further attempt. -/
theorem claim4_notfound_no_download (env : Env) (h : Bool)
    (hnav : env.navFault h = none)
    (hres : (resolveTrace (env.vis h) allSelectors).2 = none) :
    (scrape env h).2 = (false, some "Download button not found with any selector") ∧
    (scrape env h).1.countP isArm = 0 ∧
    (scrape env h).1.countP isClick = 0 ∧
    (scrape env h).1.countP isLaunch = 1 :=
  notfound_result env h hnav hres

/-- Witness for C4 on the page with no matching control. -/
theorem claim4_witness :
    (scrape envNoButton true).2
      = (false, some "Download button not found with any selector") ∧
    (scrape envNoButton true).1.countP isArm = 0 ∧
    (scrape envNoButton true).1.countP isClick = 0 ∧
    (scrape envNoButton true).1.countP isLaunch = 1 :=
  claim4_notfound_no_download envNoButton true rfl rfl

/-- C5: across one acquire call the headless flag is flipped at most
once: a call never performs more than two attempts, and a non-headless
call — in particular the escalated retry — performs exactly one. -/
theorem claim5_escalation_bound (env : Env) (h : Bool) :
    (scrape env h).1.countP isLaunch ≤ 2 ∧
    (scrape env false).1.countP isLaunch = 1 :=
  ⟨launch_count_le_two env h, launch_count_false env⟩

/-- C6: in every attempt of every run, the download-capture listener is
armed strictly before the triggering click in program order (the trace
scan `checkArm` never meets a click of an attempt whose listener is not
yet armed). -/
theorem claim6_arm_precedes_click (env : Env) (h b : Bool) :
    checkArm b false (scrape env h).1 = true :=
  checkArm_scrape_aux env h b
    (fun _ => checkArm_scrape_aux env false b (fun hc => nomatch hc))

/-- C7: if the download event does not resolve within the timeout, the
orchestrator returns a failure result (the caught `TimeoutError` becomes
`(False, "Error: ")`) and performs no retry — only the one attempt is
launched. -/
theorem claim7_download_timeout_failure (env : Env) (h : Bool)
    (hnav : env.navFault h = none) (sel : String)
    (hres : (resolveTrace (env.vis h) allSelectors).2 = some sel)
    (hdl : env.download h = none) :
    (scrape env h).2 = (false, some "Error: ") ∧
    (scrape env h).1.countP isLaunch = 1 :=
  timeout_result env h hnav sel hres hdl

/-- Witness for C7 on the page whose download never fires. -/
theorem claim7_witness :
    (scrape envStalled true).2 = (false, some "Error: ") ∧
    (scrape envStalled true).1.countP isLaunch = 1 :=
  claim7_download_timeout_failure envStalled true rfl "#download-sheet" rfl rfl

/-- C8: every value returned by the acquisition entry point is mutually
exclusive: the success flag is true exactly when the failure reason is
absent, for every environment and every exit path. -/
theorem claim8_success_iff_no_failure (env : Env) (h : Bool) :
    ((scrape env h).2.1 = true) ↔ (scrape env h).2.2 = none :=
  success_iff_no_error_aux env h
    (fun _ => success_iff_no_error_aux env false (fun hc => nomatch hc))

/-- C9: no write to the caller-visible destination happens before a
capture has completed, and every destination write carries exactly the
full byte content of the most recently captured source file (the trace
scan `checkWrites` accepts every run). -/
theorem claim9_no_partial_destination_writes (env : Env) (h : Bool) :
    checkWrites none (scrape env h).1 = true :=
  checkWrites_scrape_aux env h
    (fun _ => checkWrites_scrape_aux env false (fun hc => nomatch hc))

/-- C10: every invocation of the acquisition entry point creates the
`downloads` directory as its very first step, before any browser work,
on every path — so the directory exists afterwards even when the
acquisition fails. -/
theorem claim10_downloads_dir_created_first (env : Env) (h : Bool) :
    (scrape env h).1.head? = some (Event.mkdirs "downloads") :=
  head_is_mkdirs env h
